import Mathlib

/-!
Verification of the WANTAM pledge / meme-contest core.

Shallow embedding of:
  - src/frontend/src/lib/mpesa/webhook.ts
      (processWebhook, verifyWebhookPayload, processWebhookPayload, hashPhoneNumber)
  - the meme vote endpoint (POST, getWeekNumber, checkUserVerification,
    checkRateLimit, incrementRateLimitCounter)
  - src/frontend/src/app/api/memes/submit/route.ts (the same five functions
    for meme submission)

Conventions of the embedding:
  - JavaScript strings are Lean `String`; a missing / undefined string field is
    `Option String` with `none`; JS truthiness of a string is "non-empty".
  - Timestamps are integer epoch milliseconds.  The source compares
    `created_at` ISO-8601 strings with `gte`, which is chronological order,
    so the embedding compares the integers directly.
  - Number arithmetic on amounts is exact rational arithmetic; `parseFloat`
    is embedded as an exact decimal/exponent parser returning `Option ℚ`
    (`none` plays the role of NaN: every comparison against it is false,
    which is exactly how the code uses it).
  - The external Supabase store is explicit state: each table is a list of
    rows, and the outcome of a store call that can fail for infrastructure
    reasons is injected through fault flags carried by the world state.
  - The SHA-256 digest comes from the external Web Crypto API; the world
    carries it as an oracle function `sha256hex`, while the pure JavaScript
    fallback hash of `hashPhoneNumber` is embedded exactly.
-/

set_option maxRecDepth 8192

namespace Wantam

/-! ## JavaScript primitives -/

/-- JS truthiness of a string: the empty string is falsy. -/
def jsTruthy (s : String) : Bool := s != ""

/-- JS truthiness of a possibly-undefined string field. -/
def jsTruthyOpt (o : Option String) : Bool :=
  match o with
  | none => false
  | some s => jsTruthy s

/-- JS `x || d` for a possibly-undefined string with a string default. -/
def jsOrDefault (o : Option String) (d : String) : String :=
  match o with
  | none => d
  | some s => if jsTruthy s then s else d

/-- Digit list to natural number, most significant first. -/
def digitsToNat (ds : List Char) : Nat :=
  ds.foldl (fun n c => 10 * n + (c.toNat - 48)) 0

/-- JS whitespace skipped by `parseFloat` / `parseInt`. -/
def isJsSpace (c : Char) : Bool :=
  c = ' ' ∨ c = '\t' ∨ c = '\n' ∨ c = '\r'

/-- Leading sign of a JS numeric literal: returns (sign, rest). -/
def takeSign : List Char → Int × List Char
  | '+' :: t => (1, t)
  | '-' :: t => (-1, t)
  | cs => (1, cs)

/-- Exponent part of a JS float literal (`e`/`E`, optional sign, digits);
returns 0 when absent or malformed, exactly as `parseFloat` ignores a
trailing `e` that is not followed by digits. -/
def takeExponent (cs : List Char) : Int :=
  match cs with
  | c :: t =>
    if c = 'e' ∨ c = 'E' then
      let (s, t') := takeSign t
      let ds := t'.takeWhile Char.isDigit
      if ds.isEmpty then 0 else s * (digitsToNat ds : Int)
    else 0
  | [] => 0

/-- The exact value of a JS numeric literal, as the unreduced fraction
`num / den` (the denominator is always a power of ten). -/
structure JsNum where
  num : Int
  den : Nat
  deriving DecidableEq, Repr

/-- The rational value of a parsed JS number (spec-level view). -/
def JsNum.toRat (a : JsNum) : ℚ := (a.num : ℚ) / (a.den : ℚ)

/-- Embedding of JS `parseFloat`: longest numeric prefix after optional
whitespace and sign; `none` plays NaN.  (The float value is modelled as the
exact rational of the decimal literal; IEEE-754 rounding is not modelled.) -/
def jsParseFloat (s : String) : Option JsNum :=
  let cs := s.toList.dropWhile isJsSpace
  let (sign, cs₁) := takeSign cs
  let ds := cs₁.takeWhile Char.isDigit
  let rest := cs₁.dropWhile Char.isDigit
  let (fs, rest₂) :=
    match rest with
    | '.' :: t => (t.takeWhile Char.isDigit, t.dropWhile Char.isDigit)
    | _ => ([], rest)
  if ds.isEmpty ∧ fs.isEmpty then none
  else
    let mant : Int := sign * ((digitsToNat ds * 10 ^ fs.length + digitsToNat fs : Nat) : Int)
    let e := takeExponent rest₂
    if e ≥ 0 then some ⟨mant * 10 ^ e.toNat, 10 ^ fs.length⟩
    else some ⟨mant, 10 ^ (fs.length + (-e).toNat)⟩

/-- The strict JS comparison `amount !== 1.00` (negated): true exactly when
the parsed amount is a number equal to one; false for NaN (`none`). -/
def jsAmountIsOne (a : Option JsNum) : Bool :=
  match a with
  | none => false
  | some a => a.num == (a.den : Int)

/-- Embedding of JS `parseInt(s)` (base 10): optional whitespace and sign,
then leading digits; `none` plays NaN. -/
def jsParseInt (s : String) : Option Int :=
  let cs := s.toList.dropWhile isJsSpace
  let (sign, cs₁) := takeSign cs
  let ds := cs₁.takeWhile Char.isDigit
  if ds.isEmpty then none else some (sign * (digitsToNat ds : Int))

/-- Whether the second character list is a prefix of the first. -/
def listStartsWith : List Char → List Char → Bool
  | _, [] => true
  | [], _ :: _ => false
  | a :: as, b :: bs => a == b && listStartsWith as bs

/-- Whether the pattern occurs somewhere in the character list. -/
def listContains : List Char → List Char → Bool
  | [], pat => pat.isEmpty
  | c :: rest, pat => listStartsWith (c :: rest) pat || listContains rest pat

/-- JS `String.prototype.includes`. -/
def strIncludes (s pat : String) : Bool :=
  listContains s.toList pat.toList

/-- JS `x >= limit` where `limit` may be NaN (`none`): comparison with NaN
is false. -/
def geNaN (x : Nat) (limit : Option Int) : Bool :=
  match limit with
  | none => false
  | some l => (x : Int) ≥ l

/-- PostgREST `.single()`: returns the row when the result set has exactly
one row, and an error (here `none`) otherwise. -/
def singleRow {α : Type} (xs : List α) : Option α :=
  match xs with
  | [x] => some x
  | _ => none

/-- Signed 32-bit wrap of an integer: JS `x & x` on a number (ToInt32). -/
def toInt32 (n : Int) : Int :=
  let m := n % 4294967296
  if m ≥ 2147483648 then m - 4294967296 else m

/-- Lowercase hexadecimal of a natural number: JS `n.toString(16)`. -/
def toHex (n : Nat) : String :=
  String.mk (Nat.toDigits 16 n)

/-! ## Webhook data model (src/frontend/src/lib/mpesa/webhook.ts) -/

/-- The `MPESAWebhookPayload` interface.  Required fields are `String`
(undefined is subsumed by the empty string, both falsy); optional fields are
`Option String`. -/
structure MPESAWebhookPayload where
  TransactionType : String
  TransID : String
  TransTime : String
  TransAmount : String
  BusinessShortCode : String
  BillRefNumber : Option String
  InvoiceNumber : Option String
  OrgAccountBalance : String
  ThirdPartyTransID : Option String
  MSISDN : String
  FirstName : Option String
  MiddleName : Option String
  LastName : Option String
  deriving DecidableEq, Repr

/-- The `VerificationResult` interface. -/
structure VerificationResult where
  success : Bool
  message : String
  county : Option String
  amount : Option JsNum
  transactionId : Option String
  phoneNumber : Option String
  deriving DecidableEq, Repr

/-- A structured log entry produced by the `logger` singleton: level,
message, and the stringified data fields that were passed along. -/
structure LogEntry where
  level : String
  message : String
  data : List (String × String)
  deriving DecidableEq, Repr

/-- A Postgres/Supabase error object: `code` and `message`. -/
structure DbError where
  code : String
  message : String
  deriving DecidableEq, Repr

/-- A row of the `pledges` table as inserted by `processWebhookPayload`. -/
structure PledgeRow where
  id : String
  phone_hash : String
  county : String
  transaction_id : String
  created_at : String
  deriving DecidableEq, Repr

/-- A row of the `verified_users` table as upserted by
`processWebhookPayload` (keyed by the phone digest). -/
structure VerifiedUserRow where
  phone : String
  verified_at : String
  county : String
  transaction_id : String
  deriving DecidableEq, Repr

/-- A row of the `mpesa_transactions` table as inserted by
`processWebhook`.  `raw_payload` is the whole webhook payload. -/
structure MpesaTransactionRow where
  transaction_id : String
  transaction_time : String
  amount : String
  msisdn : String
  first_name : String
  last_name : String
  raw_payload : MPESAWebhookPayload
  deriving DecidableEq, Repr

/-- World state for the webhook module: the tables it touches, the
environment variables it reads, injected infrastructure faults, and the
ambient request context (fresh id, current time, crypto availability). -/
structure WebhookWorld where
  pledges : List PledgeRow
  verifiedUsers : List VerifiedUserRow
  mpesaTransactions : List MpesaTransactionRow
  mpesaShortcodeEnv : Option String
  pledgeInsertFault : Option DbError
  mpesaInsertFault : Bool
  upsertFault : Bool
  cryptoAvailable : Bool
  sha256hex : String → String
  freshId : String
  nowIso : String

/-! ## Webhook functions -/

/-- The first required field of `verifyWebhookPayload` that is missing or
empty, in the order of the `requiredFields` array; `none` when all are
present and non-empty. -/
def firstMissingField (p : MPESAWebhookPayload) : Option String :=
  if ¬ jsTruthy p.TransactionType then some "TransactionType"
  else if ¬ jsTruthy p.TransID then some "TransID"
  else if ¬ jsTruthy p.TransTime then some "TransTime"
  else if ¬ jsTruthy p.TransAmount then some "TransAmount"
  else if ¬ jsTruthy p.BusinessShortCode then some "BusinessShortCode"
  else if ¬ jsTruthy p.MSISDN then some "MSISDN"
  else none

/-- Display of the parsed amount in the invalid-amount message
(`none` prints as NaN, like the JS number it models; the exact digit
rendering of JS number-to-string is not reproduced). -/
def amountDisplay (a : Option JsNum) : String :=
  match a with
  | none => "NaN"
  | some q => toString q.num ++ "/" ++ toString q.den

/-- Failure result helper of the verifier. -/
def verifyFail (msg : String) : VerificationResult :=
  { success := false, message := msg, county := none, amount := none
    transactionId := none, phoneNumber := none }

/-- County extraction `payload.BillRefNumber || payload.InvoiceNumber`
(JS `||`: the first truthy operand, else the second operand). -/
def countyOf (p : MPESAWebhookPayload) : String :=
  if jsTruthyOpt p.BillRefNumber then p.BillRefNumber.getD ""
  else p.InvoiceNumber.getD ""

/-- `verifyWebhookPayload` (webhook.ts lines 80-141); `shortcodeEnv` is
`process.env.NEXT_PUBLIC_MPESA_SHORTCODE`. -/
def verifyWebhookPayload (shortcodeEnv : Option String)
    (p : MPESAWebhookPayload) : VerificationResult :=
  match firstMissingField p with
  | some field => verifyFail ("Missing required field: " ++ field)
  | none =>
    if ¬ jsAmountIsOne (jsParseFloat p.TransAmount) then
      verifyFail ("Invalid amount: " ++ amountDisplay (jsParseFloat p.TransAmount) ++
        ". Pledge amount must be exactly KES 1.00")
    else if p.BusinessShortCode ≠ jsOrDefault shortcodeEnv "123456" then
      verifyFail ("Invalid business shortcode: " ++ p.BusinessShortCode)
    else if ¬ jsTruthy (countyOf p) then
      verifyFail "Missing county information"
    else
      { success := true, message := "Webhook payload verified"
        county := some (countyOf p), amount := jsParseFloat p.TransAmount
        transactionId := some p.TransID, phoneNumber := some p.MSISDN }

/-- One step of the JS fallback hash loop:
`hash = ((hash << 5) - hash) + char; hash = hash & hash`. -/
def fallbackHashStep (hash : Int) (c : Char) : Int :=
  toInt32 (toInt32 (hash * 32) - hash + (c.toNat : Int))

/-- The accumulated 32-bit fallback hash of a phone number string. -/
def fallbackHashVal (phone : String) : Int :=
  phone.toList.foldl fallbackHashStep 0

/-- `hashPhoneNumber` (webhook.ts lines 229-255): SHA-256 hex via the Web
Crypto oracle when available, otherwise the embedded JS fallback
`"fallback_" ++ hex (abs hash)`. -/
def hashPhoneNumber (w : WebhookWorld) (phone : String) : String :=
  if w.cryptoAvailable then w.sha256hex phone
  else "fallback_" ++ toHex (fallbackHashVal phone).natAbs

/-- Result object of `processWebhookPayload`. -/
structure ProcResult where
  success : Bool
  message : String
  id : Option String
  deriving DecidableEq, Repr

/-- Result object of `processWebhook`. -/
structure WebhookResult where
  success : Bool
  error : Option String
  transactionId : Option String
  deriving DecidableEq, Repr

/-- The Postgres error raised when the `pledges.transaction_id` UNIQUE
constraint (schema: `transaction_id TEXT UNIQUE`) is violated. -/
def dupTransactionError : DbError :=
  { code := "23505"
    message := "duplicate key value violates unique constraint \"pledges_transaction_id_key\"" }

/-- Insert into `pledges`: an injected infrastructure fault wins; otherwise
the UNIQUE constraint on `transaction_id` rejects a duplicate; otherwise the
row is appended. -/
def insertPledge (w : WebhookWorld) (row : PledgeRow) :
    WebhookWorld × Option DbError :=
  match w.pledgeInsertFault with
  | some e => (w, some e)
  | none =>
    if w.pledges.any (fun r => r.transaction_id == row.transaction_id) then
      (w, some dupTransactionError)
    else ({ w with pledges := w.pledges ++ [row] }, none)

/-- Upsert of `verified_users` keyed by the phone digest: replaces the row
with the same `phone`, otherwise appends. -/
def upsertVerifiedUser (rows : List VerifiedUserRow) (row : VerifiedUserRow) :
    List VerifiedUserRow :=
  if rows.any (fun r => r.phone == row.phone) then
    rows.map (fun r => if r.phone == row.phone then row else r)
  else rows ++ [row]

/-- `processWebhookPayload` (webhook.ts lines 148-222): verify, hash the
phone number, insert the pledge (treating only the `transaction_id`
uniqueness violation as an idempotent success), then best-effort upsert of
`verified_users`.  Returns the final world, the log entries produced, and
the result object. -/
def processWebhookPayload (w : WebhookWorld) (p : MPESAWebhookPayload) :
    WebhookWorld × List LogEntry × ProcResult :=
  let verification := verifyWebhookPayload w.mpesaShortcodeEnv p
  if ¬ verification.success then
    (w, [], { success := false, message := verification.message, id := none })
  else
    let county := verification.county.getD ""
    let phoneNumber := verification.phoneNumber.getD ""
    let transactionId := verification.transactionId.getD ""
    let phoneHash := hashPhoneNumber w phoneNumber
    let row : PledgeRow :=
      { id := w.freshId, phone_hash := phoneHash, county := county
        transaction_id := transactionId, created_at := w.nowIso }
    match insertPledge w row with
    | (w₁, some e) =>
      if e.code == "23505" && strIncludes e.message "transaction_id" then
        (w₁, [], { success := true
                   message := "Duplicate transaction, already processed"
                   id := none })
      else
        (w₁, [⟨"error", "Error creating pledge", [("transactionId", transactionId)]⟩],
          { success := false
            message := "Failed to create pledge: " ++ e.message, id := none })
    | (w₁, none) =>
      if w₁.upsertFault then
        (w₁, [⟨"warn", "Error updating verified users", [("phone", phoneNumber)]⟩],
          { success := true, message := "Pledge created successfully"
            id := some row.id })
      else
        let vrow : VerifiedUserRow :=
          { phone := phoneHash, verified_at := w₁.nowIso, county := county
            transaction_id := p.TransID }
        ({ w₁ with verifiedUsers := upsertVerifiedUser w₁.verifiedUsers vrow },
          [],
          { success := true, message := "Pledge created successfully"
            id := some row.id })

/-- `processWebhook` (webhook.ts lines 12-46): logs the transaction id and
stores the transaction — including the raw `MSISDN` and the raw payload —
in `mpesa_transactions`. -/
def processWebhook (w : WebhookWorld) (p : MPESAWebhookPayload) :
    WebhookWorld × List LogEntry × WebhookResult :=
  let startLog : LogEntry :=
    ⟨"info", "Processing MPESA webhook", [("transactionId", p.TransID)]⟩
  if w.mpesaInsertFault then
    (w, [startLog, ⟨"error", "Error storing MPESA transaction",
          [("transactionId", p.TransID)]⟩],
      { success := false, error := some "Database error", transactionId := none })
  else
    let row : MpesaTransactionRow :=
      { transaction_id := p.TransID, transaction_time := p.TransTime
        amount := p.TransAmount, msisdn := p.MSISDN
        first_name := p.FirstName.getD "", last_name := p.LastName.getD ""
        raw_payload := p }
    ({ w with mpesaTransactions := w.mpesaTransactions ++ [row] },
      [startLog],
      { success := true, error := none, transactionId := some p.TransID })

/-! ## Shared data model of the meme endpoints -/

/-- The environment variables read by the two meme endpoints. -/
structure Env where
  SUPABASE_URL : Option String
  SUPABASE_ANON_KEY : Option String
  REQUIRE_MPESA_VERIFICATION : Option String
  MEME_VOTE_RATE_LIMIT : Option String
  MEME_SUBMIT_RATE_LIMIT : Option String
  deriving DecidableEq, Repr

/-- A row of the `rate_limits` table. -/
structure RateLimitRow where
  ip : String
  endpoint : String
  created_at : Int
  deriving DecidableEq, Repr

/-- A row of the `verified_users` table as read by `checkUserVerification`
(only `user_id` is consulted). -/
structure VerifiedUserIdRow where
  user_id : String
  deriving DecidableEq, Repr

/-- A row of the `meme_entries` table. -/
structure MemeEntryRow where
  id : String
  user : String
  url : String
  week : Int
  votes : Int
  created_at : Int
  request_id : String
  deriving DecidableEq, Repr

/-- A row of the `meme_votes` table. -/
structure MemeVoteRow where
  user : String
  meme_id : String
  week : Int
  created_at : Int
  request_id : String
  deriving DecidableEq, Repr

/-- The Supabase tables touched by the meme endpoints. -/
structure Store where
  rateLimits : List RateLimitRow
  verifiedUsers : List VerifiedUserIdRow
  memeEntries : List MemeEntryRow
  memeVotes : List MemeVoteRow
  deriving DecidableEq, Repr

/-- The HTTP JSON response produced by `NextResponse.json`. -/
structure ApiResponse where
  status : Nat
  error : Option String
  message : Option String
  id : Option String
  week : Option Int
  deriving DecidableEq, Repr

/-- An error-only JSON response. -/
def jsonError (status : Nat) (err : String) : ApiResponse :=
  { status := status, error := some err, message := none, id := none, week := none }

/-- An error JSON response that also carries a `message` field. -/
def jsonErrorMsg (status : Nat) (err msg : String) : ApiResponse :=
  { status := status, error := some err, message := some msg, id := none, week := none }

/-- `request.ip || 'unknown'`: the rate-limit client key of a request. -/
def clientIp (ip : Option String) : String :=
  jsOrDefault ip "unknown"

/-- Milliseconds in the sliding rate-limit window (`setHours(h－1)`, one
hour). -/
def hourMs : Int := 3600000

/-- Number of `rate_limits` rows for (ip, endpoint) within the trailing
one-hour window — the `count` of the `gte('created_at', hourAgo)` query. -/
def recentCount (rows : List RateLimitRow) (ip endpoint : String)
    (nowMs : Int) : Nat :=
  (rows.filter (fun r =>
    r.ip == ip && r.endpoint == endpoint &&
      decide (r.created_at ≥ nowMs - hourMs))).length

/-- `Math.floor(a / b)` for integers with `b > 0`: floor division. -/
def jsFloorDiv (a b : Int) : Int := Int.fdiv a b

/-- `Math.ceil(a / b)` for integers with `b > 0`: ceiling division. -/
def jsCeilDiv (a b : Int) : Int := -(Int.fdiv (-a) b)

/-- `getWeekNumber` of the vote endpoint (tailwind.config.js lines
286-295): elapsed whole days since January 1st of the current year
(`Math.floor(diff / oneDay)`), then `Math.ceil(day / 7)`. -/
def getWeekNumberVote (nowMs yearStartMs : Int) : Int :=
  let diff := nowMs - yearStartMs
  let oneDay : Int := 1000 * 60 * 60 * 24
  let day := jsFloorDiv diff oneDay
  jsCeilDiv day 7

/-- `getWeekNumber` of the submit endpoint (submit/route.ts lines 187-196);
textually identical to the vote endpoint version. -/
def getWeekNumberSubmit (nowMs yearStartMs : Int) : Int :=
  let diff := nowMs - yearStartMs
  let oneDay : Int := 1000 * 60 * 60 * 24
  let day := jsFloorDiv diff oneDay
  jsCeilDiv day 7

/-- The contest-week formula exactly as the claims state it:
`ceil(day_of_year / 7)` where `day_of_year` is the number of days elapsed
since the epoch of January 1st of the current year. -/
def specDayOfYear (nowMs yearStartMs : Int) : Int :=
  ⌊((nowMs - yearStartMs : Int) : ℚ) / 86400000⌋

/-- Claim-side contest-week number: `ceil(day_of_year / 7)`. -/
def specContestWeek (nowMs yearStartMs : Int) : Int :=
  ⌈(specDayOfYear nowMs yearStartMs : ℚ) / 7⌉

/-! ## Vote endpoint (the meme-vote route, concatenated into
src/frontend/tailwind.config.js) -/

namespace Vote

/-- The parsed JSON body `{ id, userId }` of a vote request; a missing
field is `none`. -/
structure Body where
  id : Option String
  userId : Option String
  deriving DecidableEq, Repr

/-- An incoming vote request: client ip (possibly absent) and JSON body
(`none` when `request.json()` throws). -/
structure Request where
  ip : Option String
  body : Option Body
  deriving DecidableEq, Repr

/-- World state of one vote-endpoint invocation: environment, store,
clock, request id, and injected infrastructure faults for each external
call that can fail. -/
structure World where
  env : Env
  store : Store
  nowMs : Int
  yearStartMs : Int
  requestId : String
  rateLimitQueryFault : Bool
  verificationQueryFault : Bool
  rpcFault : Bool
  voteInsertFault : Option DbError
  updateFault : Bool
  rateLimitInsertFault : Bool
  deriving DecidableEq, Repr

/-- Whether both Supabase credentials are present and non-empty. -/
def credsOk (e : Env) : Bool :=
  jsTruthyOpt e.SUPABASE_URL && jsTruthyOpt e.SUPABASE_ANON_KEY

/-- `checkRateLimit` of the vote endpoint (tailwind.config.js lines
341-377): missing credentials, a store error, or a thrown exception all
yield `false` (fail open); otherwise the request is limited when the count
of recent rows for (ip, "meme_vote") reaches the configured limit
(`parseInt(process.env.MEME_VOTE_RATE_LIMIT || "20")`, NaN comparisons
false). -/
def checkRateLimit (w : World) (req : Request) : Bool :=
  if ¬ credsOk w.env then false
  else if w.rateLimitQueryFault then false
  else
    let ip := clientIp req.ip
    let count := recentCount w.store.rateLimits ip "meme_vote" w.nowMs
    let limit := jsParseInt (jsOrDefault w.env.MEME_VOTE_RATE_LIMIT "20")
    geNaN count limit

/-- `checkUserVerification` of the vote endpoint (tailwind.config.js lines
302-334): `true` without a lookup when `REQUIRE_MPESA_VERIFICATION` is not
the string "true"; otherwise `false` on missing credentials, a store
fault, or unless the `verified_users` single-row lookup finds the user. -/
def checkUserVerification (w : World) (userId : String) : Bool :=
  if w.env.REQUIRE_MPESA_VERIFICATION ≠ some "true" then true
  else if ¬ credsOk w.env then false
  else if w.verificationQueryFault then false
  else
    match singleRow (w.store.verifiedUsers.filter (fun r => r.user_id == userId)) with
    | some _ => true
    | none => false

/-- `incrementRateLimitCounter` of the vote endpoint (tailwind.config.js
lines 383-410): best effort — missing credentials or an insert fault leave
the store unchanged, otherwise a (ip, "meme_vote", now) row is appended. -/
def incrementRateLimitCounter (w : World) (req : Request) : World :=
  if ¬ credsOk w.env then w
  else if w.rateLimitInsertFault then w
  else
    { w with store := { w.store with rateLimits := w.store.rateLimits ++
        [{ ip := clientIp req.ip, endpoint := "meme_vote", created_at := w.nowMs }] } }

/-- Modelled from the spec: the body of the Postgres stored procedure
`vote_for_meme` is not part of the repository sources; per the spec it
"insert[s] the MemeVote row and atomically increment[s] the MemeEntry
vote counter" as a single atomic unit. -/
def voteForMemeRpc (s : Store) (memeId userId : String) (week nowMs : Int)
    (requestId : String) : Store :=
  { s with
    memeVotes := s.memeVotes ++
      [{ user := userId, meme_id := memeId, week := week
         created_at := nowMs, request_id := requestId }]
    memeEntries := s.memeEntries.map (fun m =>
      if m.id == memeId then { m with votes := m.votes + 1 } else m) }

/-- The vote-recording step of the endpoint (tailwind.config.js lines
197-252): the `vote_for_meme` RPC, or on RPC failure the manual two-phase
fallback — insert the `meme_votes` row (an error is thrown and caught,
aborting), then update the `meme_entries` counter (an error is likewise
thrown and caught, aborting, but the inserted row remains).  Returns the
resulting store and whether the vote was recorded without a caught error.
The fallback region carries an unresolved merge conflict in the source;
both sides issue the same insert-then-update with identical error
handling, which is what is embedded here. -/
def recordVote (w : World) (id userId : String) (currentWeek : Int) :
    Store × Bool :=
  if ¬ w.rpcFault then
    (voteForMemeRpc w.store id userId currentWeek w.nowMs w.requestId, true)
  else
    match w.voteInsertFault with
    | some _ => (w.store, false)
    | none =>
      let s₁ := { w.store with memeVotes := w.store.memeVotes ++
        [{ user := userId, meme_id := id, week := currentWeek
           created_at := w.nowMs, request_id := w.requestId }] }
      if w.updateFault then (s₁, false)
      else
        ({ s₁ with memeEntries := s₁.memeEntries.map (fun m =>
            if m.id == id then { m with votes := m.votes + 1 } else m) },
          true)

/-- The verification-onwards phase of the vote `POST` handler
(tailwind.config.js lines 93-271), reached once the rate limit, body parse
and input presence gates have passed; `id` and `userId` are the validated
body fields.  `req` is still needed for the rate-limit counter record. -/
def votePhase (w : World) (req : Request) (id userId : String) :
    World × ApiResponse :=
  if ¬ checkUserVerification w userId then
    (w, jsonErrorMsg 403 "User not verified"
      "Please verify your account with MPESA first")
  else if ¬ credsOk w.env then
    (w, jsonError 500 "Server configuration error")
  else
    let currentWeek := getWeekNumberVote w.nowMs w.yearStartMs
    match singleRow (w.store.memeVotes.filter (fun v =>
        v.user == userId && v.week == currentWeek)) with
    | some _ =>
      (w, jsonErrorMsg 400 "Already voted"
        "You have already voted for a meme this week")
    | none =>
      match singleRow (w.store.memeEntries.filter (fun m => m.id == id)) with
      | none => (w, jsonError 404 "Meme not found")
      | some meme =>
        if meme.week ≠ currentWeek then
          (w, jsonErrorMsg 400 "Invalid meme"
            "You can only vote for memes from the current week")
        else if meme.user == userId then
          (w, jsonErrorMsg 400 "Cannot vote for own meme"
            "You cannot vote for your own meme")
        else
          let attempt := recordVote w id userId currentWeek
          let w₁ := { w with store := attempt.1 }
          if ¬ attempt.2 then
            (w₁, jsonError 500 "Failed to record vote")
          else
            let w₂ := incrementRateLimitCounter w₁ req
            (w₂, { status := 200, error := none
                   message := some "Vote recorded successfully"
                   id := some id, week := some currentWeek })

/-- The `POST` handler of the vote endpoint (tailwind.config.js lines
39-280).  Returns the final world and the JSON response. -/
def POST (w : World) (req : Request) : World × ApiResponse :=
  if checkRateLimit w req then
    (w, jsonErrorMsg 429 "Rate limit exceeded" "Please try again later")
  else
    match req.body with
    | none => (w, jsonError 400 "Invalid JSON payload")
    | some body =>
      if ¬ jsTruthyOpt body.id then (w, jsonError 400 "Meme ID is required")
      else if ¬ jsTruthyOpt body.userId then (w, jsonError 400 "User ID is required")
      else votePhase w req (body.id.getD "") (body.userId.getD "")

end Vote

/-! ## Submission endpoint (src/frontend/src/app/api/memes/submit/route.ts) -/

namespace Submit

/-- The parsed JSON body `{ url, userId }` of a submission request. -/
structure Body where
  url : Option String
  userId : Option String
  deriving DecidableEq, Repr

/-- An incoming submission request. -/
structure Request where
  ip : Option String
  body : Option Body
  deriving DecidableEq, Repr

/-- World state of one submit-endpoint invocation.  `urlParses` is the
oracle for the external WHATWG `new URL(url)` constructor (`false` means
it throws). -/
structure World where
  env : Env
  store : Store
  nowMs : Int
  yearStartMs : Int
  requestId : String
  freshMemeId : String
  urlParses : String → Bool
  rateLimitQueryFault : Bool
  verificationQueryFault : Bool
  entryInsertFault : Bool
  rateLimitInsertFault : Bool

/-- Whether both Supabase credentials are present and non-empty. -/
def credsOk (e : Env) : Bool :=
  jsTruthyOpt e.SUPABASE_URL && jsTruthyOpt e.SUPABASE_ANON_KEY

/-- `checkRateLimit` of the submit endpoint (submit/route.ts lines
242-278): identical to the vote version except for the endpoint name and
`parseInt(process.env.MEME_SUBMIT_RATE_LIMIT || "5")`. -/
def checkRateLimit (w : World) (req : Request) : Bool :=
  if ¬ credsOk w.env then false
  else if w.rateLimitQueryFault then false
  else
    let ip := clientIp req.ip
    let count := recentCount w.store.rateLimits ip "meme_submit" w.nowMs
    let limit := jsParseInt (jsOrDefault w.env.MEME_SUBMIT_RATE_LIMIT "5")
    geNaN count limit

/-- `checkUserVerification` of the submit endpoint (submit/route.ts lines
203-235); textually identical to the vote version. -/
def checkUserVerification (w : World) (userId : String) : Bool :=
  if w.env.REQUIRE_MPESA_VERIFICATION ≠ some "true" then true
  else if ¬ credsOk w.env then false
  else if w.verificationQueryFault then false
  else
    match singleRow (w.store.verifiedUsers.filter (fun r => r.user_id == userId)) with
    | some _ => true
    | none => false

/-- `incrementRateLimitCounter` of the submit endpoint (submit/route.ts
lines 284-311). -/
def incrementRateLimitCounter (w : World) (req : Request) : World :=
  if ¬ credsOk w.env then w
  else if w.rateLimitInsertFault then w
  else
    { w with store := { w.store with rateLimits := w.store.rateLimits ++
        [{ ip := clientIp req.ip, endpoint := "meme_submit", created_at := w.nowMs }] } }

/-- The `POST` handler of the submit endpoint (submit/route.ts lines
13-181). -/
def POST (w : World) (req : Request) : World × ApiResponse :=
  if checkRateLimit w req then
    (w, jsonErrorMsg 429 "Rate limit exceeded" "Please try again later")
  else
    match req.body with
    | none => (w, jsonError 400 "Invalid JSON payload")
    | some body =>
      if ¬ jsTruthyOpt body.url then (w, jsonError 400 "Meme URL is required")
      else if ¬ w.urlParses (body.url.getD "") then
        (w, jsonError 400 "Invalid URL format")
      else if ¬ jsTruthyOpt body.userId then
        (w, jsonError 400 "User ID is required")
      else
        let url := body.url.getD ""
        let userId := body.userId.getD ""
        if ¬ checkUserVerification w userId then
          (w, jsonErrorMsg 403 "User not verified"
            "Please verify your account with MPESA first")
        else if ¬ credsOk w.env then
          (w, jsonError 500 "Server configuration error")
        else
          let currentWeek := getWeekNumberSubmit w.nowMs w.yearStartMs
          match singleRow (w.store.memeEntries.filter (fun m =>
              m.user == userId && m.week == currentWeek)) with
          | some _ =>
            (w, jsonErrorMsg 400 "Already submitted"
              "You have already submitted a meme this week")
          | none =>
            if w.entryInsertFault then
              (w, jsonError 500 "Failed to submit meme")
            else
              let row : MemeEntryRow :=
                { id := w.freshMemeId, user := userId, url := url
                  week := currentWeek, votes := 0, created_at := w.nowMs
                  request_id := w.requestId }
              let w₁ := { w with store :=
                { w.store with memeEntries := w.store.memeEntries ++ [row] } }
              let w₂ := incrementRateLimitCounter w₁ req
              (w₂, { status := 201, error := none
                     message := some "Meme submitted successfully"
                     id := some w.freshMemeId, week := some currentWeek })

end Submit

/-! ## Concrete fixtures -/

/-- A webhook payload whose amount is 2.00, otherwise well-formed. -/
def payloadAmount2 : MPESAWebhookPayload :=
  { TransactionType := "Pay Bill", TransID := "T1"
    TransTime := "20250101120000", TransAmount := "2.00"
    BusinessShortCode := "123456", BillRefNumber := some "Nairobi"
    InvoiceNumber := none, OrgAccountBalance := "100.00"
    ThirdPartyTransID := none, MSISDN := "254712345678"
    FirstName := some "Jane", MiddleName := none, LastName := some "Doe" }

/-- A well-formed webhook payload with amount exactly 1.00. -/
def payloadOk : MPESAWebhookPayload :=
  { TransactionType := "Pay Bill", TransID := "T1"
    TransTime := "20250101120000", TransAmount := "1.00"
    BusinessShortCode := "123456", BillRefNumber := some "Nairobi"
    InvoiceNumber := none, OrgAccountBalance := "100.00"
    ThirdPartyTransID := none, MSISDN := "254712345678"
    FirstName := some "Jane", MiddleName := none, LastName := some "Doe" }

/-- A healthy webhook world with empty tables and no injected faults. -/
def baseWebhookWorld : WebhookWorld :=
  { pledges := [], verifiedUsers := [], mpesaTransactions := []
    mpesaShortcodeEnv := none, pledgeInsertFault := none
    mpesaInsertFault := false, upsertFault := false
    cryptoAvailable := false, sha256hex := fun _ => ""
    freshId := "pledge-2", nowIso := "2025-06-01T00:00:00.000Z" }

/-- The webhook world after the first successful processing of
`payloadOk`: one pledge row for transaction T1 is stored. -/
def dupWebhookWorld : WebhookWorld :=
  { baseWebhookWorld with
    pledges := [{ id := "pledge-1"
                  phone_hash := hashPhoneNumber baseWebhookWorld "254712345678"
                  county := "Nairobi", transaction_id := "T1"
                  created_at := "2025-05-31T00:00:00.000Z" }] }

/-- An environment with Supabase credentials set and everything else at
its default (unset). -/
def voteEnv : Env :=
  { SUPABASE_URL := some "https://db.example", SUPABASE_ANON_KEY := some "anon-key"
    REQUIRE_MPESA_VERIFICATION := none, MEME_VOTE_RATE_LIMIT := none
    MEME_SUBMIT_RATE_LIMIT := none }

/-- A store holding a single current-week meme entry by user u2. -/
def voteStore : Store :=
  { rateLimits := [], verifiedUsers := []
    memeEntries := [{ id := "m1", user := "u2", url := "https://img.example/meme.png"
                      week := 2, votes := 0, created_at := 0, request_id := "r0" }]
    memeVotes := [] }

/-- A healthy vote world ten days into the year (contest week 2), with the
RPC unavailable so the in-repository manual fallback path runs. -/
def voteWorld : Vote.World :=
  { env := voteEnv, store := voteStore, nowMs := 864000000, yearStartMs := 0
    requestId := "req-1", rateLimitQueryFault := false
    verificationQueryFault := false, rpcFault := true
    voteInsertFault := none, updateFault := false, rateLimitInsertFault := false }

/-- A vote request by user u1 for meme m1. -/
def voteReq : Vote.Request :=
  { ip := some "203.0.113.5", body := some { id := some "m1", userId := some "u1" } }

/-- A healthy submit world at the same instant. -/
def submitWorld : Submit.World :=
  { env := voteEnv
    store := { rateLimits := [], verifiedUsers := [], memeEntries := [], memeVotes := [] }
    nowMs := 864000000, yearStartMs := 0, requestId := "req-2"
    freshMemeId := "meme-9", urlParses := fun _ => true
    rateLimitQueryFault := false, verificationQueryFault := false
    entryInsertFault := false, rateLimitInsertFault := false }

/-- A submission request by user u9. -/
def submitReq : Submit.Request :=
  { ip := some "203.0.113.5"
    body := some { url := some "https://img.example/a.png", userId := some "u9" } }

/-- A fresh (in-window) vote rate-limit record for the fixture client. -/
def voteHit : RateLimitRow :=
  { ip := "203.0.113.5", endpoint := "meme_vote", created_at := 864000000 }

/-- A fresh (in-window) submit rate-limit record for the fixture client. -/
def submitHit : RateLimitRow :=
  { ip := "203.0.113.5", endpoint := "meme_submit", created_at := 864000000 }

/-- A vote world whose client already has 20 records inside the window. -/
def limitedVoteWorld : Vote.World :=
  { voteWorld with store := { voteStore with rateLimits := List.replicate 20 voteHit } }

/-- A submit world whose client already has 5 records inside the window. -/
def limitedSubmitWorld : Submit.World :=
  { submitWorld with store :=
      { rateLimits := List.replicate 5 submitHit, verifiedUsers := []
        memeEntries := [], memeVotes := [] } }

/-- A vote world whose only rate-limit record is over an hour old. -/
def staleVoteWorld : Vote.World :=
  { voteWorld with store := { voteStore with rateLimits :=
      [{ voteHit with created_at := 0 }] } }

/-- A submit world whose only rate-limit record is over an hour old. -/
def staleSubmitWorld : Submit.World :=
  { submitWorld with store :=
      { rateLimits := [{ submitHit with created_at := 0 }], verifiedUsers := []
        memeEntries := [], memeVotes := [] } }

/-! ## Helper lemmas -/

/-- Floor division agrees with the real floor of the quotient. -/
lemma jsFloorDiv_eq_floor (a : ℤ) (b : ℕ) (_hb : 0 < b) :
    jsFloorDiv a b = ⌊(a : ℚ) / (b : ℚ)⌋ := by
  rw [jsFloorDiv, Rat.floor_intCast_div_natCast, Int.fdiv_eq_ediv]
  exact Int.ofNat_nonneg b

/-- Ceiling division agrees with the real ceiling of the quotient. -/
lemma jsCeilDiv_eq_ceil (a : ℤ) (b : ℕ) (_hb : 0 < b) :
    jsCeilDiv a b = ⌈(a : ℚ) / (b : ℚ)⌉ := by
  rw [jsCeilDiv, Int.fdiv_eq_ediv _ (Int.ofNat_nonneg b),
    ← Rat.floor_intCast_div_natCast (-a) b]
  push_cast
  rw [neg_div, Int.floor_neg, neg_neg]

/-- Every denominator produced by the parser is a power of ten. -/
lemma jsParseFloat_den_pow (s : String) (a : JsNum)
    (h : jsParseFloat s = some a) : ∃ k : ℕ, a.den = 10 ^ k := by
  simp only [jsParseFloat] at h
  split at h
  · cases h
  · split at h
    · cases h
      exact ⟨_, rfl⟩
    · cases h
      exact ⟨_, rfl⟩

/-- The embedded amount check `jsAmountIsOne` is true exactly when the
parsed amount exists and its rational value is exactly one. -/
lemma jsAmountIsOne_iff (s : String) :
    jsAmountIsOne (jsParseFloat s) = true ↔
      ∃ a, jsParseFloat s = some a ∧ JsNum.toRat a = 1 := by
  cases h : jsParseFloat s with
  | none => simp [jsAmountIsOne]
  | some a =>
    obtain ⟨k, hk⟩ := jsParseFloat_den_pow s a h
    have hden : ((a.den : ℚ)) ≠ 0 := by
      rw [hk]; positivity
    simp only [jsAmountIsOne, beq_iff_eq, Option.some.injEq]
    constructor
    · intro hnum
      refine ⟨a, rfl, ?_⟩
      rw [JsNum.toRat, hnum]
      push_cast
      exact div_self hden
    · rintro ⟨b, hb, hq⟩
      cases hb
      rw [JsNum.toRat, div_eq_one_iff_eq hden] at hq
      exact_mod_cast hq

/-- A successful verification result is exactly the record built from the
payload fields. -/
lemma verify_success (sc : Option String) (p : MPESAWebhookPayload)
    (h : (verifyWebhookPayload sc p).success = true) :
    verifyWebhookPayload sc p =
      { success := true, message := "Webhook payload verified"
        county := some (countyOf p), amount := jsParseFloat p.TransAmount
        transactionId := some p.TransID, phoneNumber := some p.MSISDN } := by
  unfold verifyWebhookPayload at h ⊢
  split at h
  next field heq =>
    simp [verifyFail] at h
  next heq =>
    split_ifs at h ⊢ <;> simp_all [verifyFail]

/-- Once the rate-limit, JSON-parse and input-presence gates pass, the vote
`POST` is its verification-onwards phase. -/
lemma post_gates (w : Vote.World) (req : Vote.Request) (body : Vote.Body)
    (hrl : Vote.checkRateLimit w req = false)
    (hbody : req.body = some body)
    (hid : jsTruthyOpt body.id = true)
    (huid : jsTruthyOpt body.userId = true) :
    Vote.POST w req =
      Vote.votePhase w req (body.id.getD "") (body.userId.getD "") := by
  simp only [Vote.POST, hrl, hbody, hid, huid]
  simp

/-- The rate-limit counter insert does not touch the vote ledger. -/
lemma increment_memeVotes (w : Vote.World) (req : Vote.Request) :
    (Vote.incrementRateLimitCounter w req).store.memeVotes =
      w.store.memeVotes := by
  unfold Vote.incrementRateLimitCounter
  split_ifs <;> rfl

/-- The vote-recording step never touches the rate-limit table. -/
lemma recordVote_rateLimits (w : Vote.World) (id userId : String) (week : Int) :
    (Vote.recordVote w id userId week).1.rateLimits = w.store.rateLimits := by
  unfold Vote.recordVote Vote.voteForMemeRpc
  repeat' split
  all_goals rfl

set_option maxHeartbeats 1000000 in
/-- Branch analysis of the vote handler: on every non-200 outcome the
rate-limit table is untouched, and on the 200 outcome exactly one record
for (client ip, "meme_vote") is appended unless the counter insert itself
fails. -/
lemma vote_post_rateLimits (w : Vote.World) (req : Vote.Request) :
    ((Vote.POST w req).2.status ≠ 200 ∧
      (Vote.POST w req).1.store.rateLimits = w.store.rateLimits) ∨
    ((Vote.POST w req).2.status = 200 ∧
      (Vote.POST w req).1.store.rateLimits =
        (if w.rateLimitInsertFault then w.store.rateLimits
         else w.store.rateLimits ++
           [{ ip := clientIp req.ip, endpoint := "meme_vote", created_at := w.nowMs }])) := by
  simp only [Vote.POST, Vote.votePhase]
  repeat' split
  all_goals first
  | exact Or.inl ⟨by simp [jsonError, jsonErrorMsg], rfl⟩
  | exact Or.inl ⟨by simp [jsonError, jsonErrorMsg], recordVote_rateLimits ..⟩
  | (refine Or.inr ⟨rfl, ?_⟩
     unfold Vote.incrementRateLimitCounter
     split_ifs <;> simp_all [recordVote_rateLimits])

set_option maxHeartbeats 1000000 in
/-- Branch analysis of the submit handler: the rate-limit table is
untouched except on a 201 outcome, where one (client ip, "meme_submit")
record is appended unless the counter insert itself fails. -/
lemma submit_post_rateLimits (w : Submit.World) (req : Submit.Request) :
    ((Submit.POST w req).2.status ≠ 201 ∧
      (Submit.POST w req).1.store.rateLimits = w.store.rateLimits) ∨
    ((Submit.POST w req).2.status = 201 ∧
      (Submit.POST w req).1.store.rateLimits =
        (if w.rateLimitInsertFault then w.store.rateLimits
         else w.store.rateLimits ++
           [{ ip := clientIp req.ip, endpoint := "meme_submit", created_at := w.nowMs }])) := by
  simp only [Submit.POST]
  repeat' split
  all_goals first
  | exact Or.inl ⟨by simp [jsonError, jsonErrorMsg], rfl⟩
  | (refine Or.inr ⟨rfl, ?_⟩
     unfold Submit.incrementRateLimitCounter
     split_ifs <;> simp_all)

set_option maxHeartbeats 1000000 in
/-- When the rate-limit gate reports not limited, the vote handler never
answers 429. -/
lemma vote_post_no429 (w : Vote.World) (req : Vote.Request)
    (h : Vote.checkRateLimit w req = false) :
    (Vote.POST w req).2.status ≠ 429 := by
  simp only [Vote.POST, Vote.votePhase, h, Bool.false_eq_true, if_false]
  repeat' split
  all_goals simp [jsonError, jsonErrorMsg]

set_option maxHeartbeats 1000000 in
/-- When the rate-limit gate reports not limited, the submit handler never
answers 429. -/
lemma submit_post_no429 (w : Submit.World) (req : Submit.Request)
    (h : Submit.checkRateLimit w req = false) :
    (Submit.POST w req).2.status ≠ 429 := by
  simp only [Submit.POST, h, Bool.false_eq_true, if_false]
  repeat' split
  all_goals simp [jsonError, jsonErrorMsg]

/-! ## Claim theorems -/

/-- C1: for every verified payload whose transaction id already has a
stored pledge row, a repeated `processWebhookPayload` call returns success
with the "already processed" message, leaves the pledges table unchanged
(so exactly one row for that transaction id remains), and the
`transaction_id` uniqueness violation (code 23505 with a message naming
`transaction_id`) is the only insert error treated as success. -/
theorem c1_duplicate_transaction_idempotent :
    (∀ (w : WebhookWorld) (p : MPESAWebhookPayload),
      (verifyWebhookPayload w.mpesaShortcodeEnv p).success = true →
      w.pledgeInsertFault = none →
      (w.pledges.filter (fun r => r.transaction_id == p.TransID)).length = 1 →
      (processWebhookPayload w p).2.2 =
        { success := true, message := "Duplicate transaction, already processed"
          id := none } ∧
      (processWebhookPayload w p).1.pledges = w.pledges ∧
      ((processWebhookPayload w p).1.pledges.filter
        (fun r => r.transaction_id == p.TransID)).length = 1) ∧
    (∀ (w : WebhookWorld) (p : MPESAWebhookPayload) (e : DbError),
      (verifyWebhookPayload w.mpesaShortcodeEnv p).success = true →
      w.pledgeInsertFault = some e →
      (processWebhookPayload w p).2.2.success = true →
      e.code = "23505" ∧ strIncludes e.message "transaction_id" = true) := by
  constructor
  · intro w p hv hfault hdup
    have hvs := verify_success _ _ hv
    have hne : w.pledges.filter (fun r => r.transaction_id == p.TransID) ≠ [] := by
      intro hnil
      rw [hnil] at hdup
      cases hdup
    obtain ⟨r, hr⟩ := List.exists_mem_of_ne_nil _ hne
    obtain ⟨hrm, hrp⟩ := List.mem_filter.mp hr
    have hany : w.pledges.any (fun r => r.transaction_id == p.TransID) = true :=
      List.any_eq_true.mpr ⟨r, hrm, hrp⟩
    have hproc : processWebhookPayload w p =
        (w, [], { success := true, message := "Duplicate transaction, already processed"
                  id := none }) := by
      unfold processWebhookPayload
      rw [hvs]
      simp only [Option.getD_some, Bool.not_true, if_false, if_neg]
      unfold insertPledge
      rw [hfault]
      simp [hany, dupTransactionError, strIncludes]
      decide
    rw [hproc]
    exact ⟨rfl, rfl, hdup⟩
  · intro w p e hv hfault hsucc
    have hvs := verify_success _ _ hv
    unfold processWebhookPayload at hsucc
    rw [hvs] at hsucc
    simp only [Option.getD_some] at hsucc
    unfold insertPledge at hsucc
    rw [hfault] at hsucc
    by_cases hc : (e.code == "23505" && strIncludes e.message "transaction_id") = true
    · obtain ⟨h1, h2⟩ := Bool.and_eq_true_iff.mp hc
      exact ⟨by simpa using h1, h2⟩
    · simp [hc] at hsucc

/-- Witness for C1: the redelivered `payloadOk` is reported as already
processed and the single T1 pledge row is preserved; and with an injected
uniqueness-violation error the call still succeeds. -/
theorem c1_witness :
    ((verifyWebhookPayload dupWebhookWorld.mpesaShortcodeEnv payloadOk).success = true ∧
      (processWebhookPayload dupWebhookWorld payloadOk).2.2 =
        { success := true, message := "Duplicate transaction, already processed"
          id := none }) ∧
    ((processWebhookPayload
        { dupWebhookWorld with pledgeInsertFault := some dupTransactionError }
        payloadOk).2.2.success = true →
      dupTransactionError.code = "23505" ∧
      strIncludes dupTransactionError.message "transaction_id" = true) :=
  ⟨⟨by decide,
    (c1_duplicate_transaction_idempotent.1 dupWebhookWorld payloadOk
      (by decide) (by decide) (by decide)).1⟩,
    fun h => c1_duplicate_transaction_idempotent.2
      { dupWebhookWorld with pledgeInsertFault := some dupTransactionError }
      payloadOk dupTransactionError (by decide) (by decide) h⟩

/-- C2 counterexample: in the fallback with the vote-row insert succeeding
and the counter update failing, the endpoint reports HTTP 500 "Failed to
record vote" — not success — even though the vote row was durably
inserted. -/
theorem c2_counterexample :
    ({ voteWorld with updateFault := true }.rpcFault = true ∧
      { voteWorld with updateFault := true }.voteInsertFault = none) ∧
    (Vote.POST { voteWorld with updateFault := true } voteReq).2 =
      jsonError 500 "Failed to record vote" ∧
    (Vote.POST { voteWorld with updateFault := true } voteReq).1.store.memeVotes.map
      (fun v => (v.user, v.meme_id)) = [("u1", "m1")] := by
  exact ⟨⟨rfl, rfl⟩, by decide, by decide⟩

/-- C2 amended: in the two-phase fallback, when the vote-row insert
succeeds but the counter update fails, the thrown update error is caught
by the fallback catch and the endpoint reports HTTP 500 "Failed to record
vote" to the caller; the inserted MemeVote row nevertheless remains in the
store (the authoritative ledger keeps the vote even though the response is
a failure). -/
theorem c2_amended_increment_failure_reports_500 (w : Vote.World)
    (req : Vote.Request) (body : Vote.Body) (memeId userId : String)
    (m : MemeEntryRow)
    (hrl : Vote.checkRateLimit w req = false)
    (hbody : req.body = some body)
    (hid : body.id = some memeId)
    (hmid : jsTruthy memeId = true)
    (huid : body.userId = some userId)
    (hu : jsTruthy userId = true)
    (hver : Vote.checkUserVerification w userId = true)
    (hcreds : Vote.credsOk w.env = true)
    (hnovote : w.store.memeVotes.filter (fun v => v.user == userId &&
      v.week == getWeekNumberVote w.nowMs w.yearStartMs) = [])
    (hmeme : w.store.memeEntries.filter (fun m => m.id == memeId) = [m])
    (hmw : m.week = getWeekNumberVote w.nowMs w.yearStartMs)
    (hmu : (m.user == userId) = false)
    (hrpc : w.rpcFault = true)
    (hins : w.voteInsertFault = none)
    (hupd : w.updateFault = true) :
    Vote.POST w req =
      ({ w with store := { w.store with memeVotes := w.store.memeVotes ++
          [{ user := userId, meme_id := memeId
             week := getWeekNumberVote w.nowMs w.yearStartMs
             created_at := w.nowMs, request_id := w.requestId }] } },
        jsonError 500 "Failed to record vote") := by
  have hrec : Vote.recordVote w memeId userId
      (getWeekNumberVote w.nowMs w.yearStartMs) =
      ({ w.store with memeVotes := w.store.memeVotes ++
          [{ user := userId, meme_id := memeId
             week := getWeekNumberVote w.nowMs w.yearStartMs
             created_at := w.nowMs, request_id := w.requestId }] }, false) := by
    simp only [Vote.recordVote, hrpc, hins, hupd]
    rfl
  rw [post_gates w req body hrl hbody (by simp [jsTruthyOpt, hid, hmid])
    (by simp [jsTruthyOpt, huid, hu])]
  simp only [Vote.votePhase, huid, hid, Option.getD_some]
  rw [if_neg (by simp [hver]), if_neg (by simp [hcreds]), hnovote, hmeme]
  simp only [singleRow]
  rw [if_neg (by simp [hmw]), if_neg (by simp [hmu]), hrec]
  rfl

/-- Witness for C2 amended at the concrete fallback world with a failing
counter update. -/
theorem c2_witness :
    Vote.POST { voteWorld with updateFault := true } voteReq =
      ({ { voteWorld with updateFault := true } with store :=
          { { voteWorld with updateFault := true }.store with memeVotes :=
              { voteWorld with updateFault := true }.store.memeVotes ++
                [{ user := "u1", meme_id := "m1", week := 2
                   created_at := 864000000, request_id := "req-1" }] } },
        jsonError 500 "Failed to record vote") := by
  have h := c2_amended_increment_failure_reports_500
    { voteWorld with updateFault := true } voteReq
    { id := some "m1", userId := some "u1" } "m1" "u1"
    { id := "m1", user := "u2", url := "https://img.example/meme.png"
      week := 2, votes := 0, created_at := 0, request_id := "r0" }
    (by decide) rfl rfl (by decide) rfl (by decide) (by decide) (by decide)
    (by decide) (by decide) (by decide) (by decide) rfl rfl rfl
  exact h.trans (by decide)

/-- C3 counterexample: at the concrete verified payload, `processWebhook`
stores the raw MSISDN "254712345678" in the `mpesa_transactions` row, and
the verified-users upsert failure path of `processWebhookPayload` writes
the raw phone number into a warning log entry — so the webhook pipeline
does store and log the raw phone number, contrary to the claim. -/
theorem c3_counterexample :
    (processWebhook baseWebhookWorld payloadOk).1.mpesaTransactions.map
      (fun r => r.msisdn) = ["254712345678"] ∧
    (processWebhookPayload { baseWebhookWorld with upsertFault := true }
      payloadOk).2.1 =
      [⟨"warn", "Error updating verified users", [("phone", "254712345678")]⟩] := by
  exact ⟨by decide, by decide⟩

/-- C3 amended: the pledge row created by `processWebhookPayload` stores
the one-way digest `hashPhoneNumber` of the MSISDN, not the raw number;
however `processWebhook` stores the raw MSISDN (and the raw payload) in
`mpesa_transactions`, and when the verified-users upsert fails the warning
log entry carries the raw phone number. -/
theorem c3_amended_digest_in_pledge_raw_elsewhere :
    (∀ (w : WebhookWorld) (p : MPESAWebhookPayload),
      (verifyWebhookPayload w.mpesaShortcodeEnv p).success = true →
      w.pledgeInsertFault = none →
      w.pledges.any (fun r => r.transaction_id == p.TransID) = false →
      (processWebhookPayload w p).1.pledges = w.pledges ++
        [{ id := w.freshId, phone_hash := hashPhoneNumber w p.MSISDN
           county := countyOf p, transaction_id := p.TransID
           created_at := w.nowIso }]) ∧
    (∀ (w : WebhookWorld) (p : MPESAWebhookPayload),
      w.mpesaInsertFault = false →
      (processWebhook w p).1.mpesaTransactions = w.mpesaTransactions ++
        [{ transaction_id := p.TransID, transaction_time := p.TransTime
           amount := p.TransAmount, msisdn := p.MSISDN
           first_name := p.FirstName.getD "", last_name := p.LastName.getD ""
           raw_payload := p }]) ∧
    (∀ (w : WebhookWorld) (p : MPESAWebhookPayload),
      (verifyWebhookPayload w.mpesaShortcodeEnv p).success = true →
      w.pledgeInsertFault = none →
      w.pledges.any (fun r => r.transaction_id == p.TransID) = false →
      w.upsertFault = true →
      (processWebhookPayload w p).2.1 =
        [⟨"warn", "Error updating verified users", [("phone", p.MSISDN)]⟩]) := by
  refine ⟨?_, ?_, ?_⟩
  · intro w p hv hfault hnodup
    have hvs := verify_success _ _ hv
    unfold processWebhookPayload
    rw [hvs]
    simp only [Option.getD_some, Bool.not_true, if_false, if_neg]
    unfold insertPledge
    rw [hfault, hnodup]
    by_cases hup : w.upsertFault <;> simp [hup]
  · intro w p hins
    unfold processWebhook
    rw [hins]
    simp
  · intro w p hv hfault hnodup hup
    have hvs := verify_success _ _ hv
    unfold processWebhookPayload
    rw [hvs]
    simp only [Option.getD_some, Bool.not_true, if_false, if_neg]
    unfold insertPledge
    rw [hfault, hnodup]
    simp [hup]

/-- Witness for C3 amended at the concrete verified payload. -/
theorem c3_witness :
    (processWebhookPayload baseWebhookWorld payloadOk).1.pledges =
      [{ id := baseWebhookWorld.freshId
         phone_hash := hashPhoneNumber baseWebhookWorld payloadOk.MSISDN
         county := countyOf payloadOk, transaction_id := payloadOk.TransID
         created_at := baseWebhookWorld.nowIso }] ∧
    (processWebhook baseWebhookWorld payloadOk).1.mpesaTransactions.map
      (fun r => r.msisdn) = [payloadOk.MSISDN] :=
  ⟨(c3_amended_digest_in_pledge_raw_elsewhere.1 baseWebhookWorld payloadOk
      (by decide) (by decide) (by decide)).trans (by decide),
    by rw [c3_amended_digest_in_pledge_raw_elsewhere.2.1 baseWebhookWorld payloadOk (by decide)]
       decide⟩

/-- C4: for every invocation date, the contest week number used by both the
vote endpoint and the meme-submission endpoint equals
`ceil(day_of_year / 7)`, where `day_of_year` is the number of whole days
elapsed since the epoch of January 1st of the current year. -/
theorem c4_contest_week_is_ceil_day_of_year_div7 (nowMs yearStartMs : Int) :
    getWeekNumberVote nowMs yearStartMs = specContestWeek nowMs yearStartMs ∧
    getWeekNumberSubmit nowMs yearStartMs = specContestWeek nowMs yearStartMs := by
  have hday : jsFloorDiv (nowMs - yearStartMs) (1000 * 60 * 60 * 24) =
      specDayOfYear nowMs yearStartMs := by
    rw [specDayOfYear, show ((1000 * 60 * 60 * 24 : ℤ)) = ((86400000 : ℕ) : ℤ) by norm_num,
      jsFloorDiv_eq_floor _ _ (by norm_num)]
    norm_num
  have hweek : jsCeilDiv (specDayOfYear nowMs yearStartMs) 7 =
      specContestWeek nowMs yearStartMs := by
    rw [specContestWeek, show ((7 : ℤ)) = ((7 : ℕ) : ℤ) by norm_num,
      jsCeilDiv_eq_ceil _ _ (by norm_num)]
    norm_num
  constructor
  · show jsCeilDiv (jsFloorDiv (nowMs - yearStartMs) (1000 * 60 * 60 * 24)) 7 = _
    rw [hday, hweek]
  · show jsCeilDiv (jsFloorDiv (nowMs - yearStartMs) (1000 * 60 * 60 * 24)) 7 = _
    rw [hday, hweek]

/-- C5 counterexample: with `REQUIRE_MPESA_VERIFICATION` unset, a voter
with no `verified_users` row is not rejected: the vote endpoint answers
200 and writes the vote — so a voter without a VerifiedUser record does
not fail with 403 before vote state is written. -/
theorem c5_counterexample :
    voteWorld.env.REQUIRE_MPESA_VERIFICATION ≠ some "true" ∧
    voteWorld.store.verifiedUsers = [] ∧
    (Vote.POST voteWorld voteReq).2.status = 200 ∧
    (Vote.POST voteWorld voteReq).1.store.memeVotes.map (fun v => v.user) =
      ["u1"] := by
  exact ⟨by decide, rfl, by decide, by decide⟩

/-- C5 amended: when `REQUIRE_MPESA_VERIFICATION` is the string "true",
every vote request whose voter has no `verified_users` row fails with
HTTP 403 "User not verified" and the world — in particular all vote
state — is returned unchanged. -/
theorem c5_amended_unverified_403_when_required (w : Vote.World)
    (req : Vote.Request) (body : Vote.Body) (userId : String)
    (hflag : w.env.REQUIRE_MPESA_VERIFICATION = some "true")
    (hnouser : w.store.verifiedUsers.filter (fun r => r.user_id == userId) = [])
    (hrl : Vote.checkRateLimit w req = false)
    (hbody : req.body = some body)
    (hid : jsTruthyOpt body.id = true)
    (huid : body.userId = some userId)
    (hu : jsTruthy userId = true) :
    Vote.POST w req =
      (w, jsonErrorMsg 403 "User not verified"
        "Please verify your account with MPESA first") := by
  have hver : Vote.checkUserVerification w userId = false := by
    unfold Vote.checkUserVerification
    rw [if_neg (by simp [hflag]), hnouser]
    split_ifs <;> rfl
  rw [post_gates w req body hrl hbody hid (by simp [jsTruthyOpt, huid, hu])]
  simp only [Vote.votePhase, huid, Option.getD_some]
  rw [if_pos (by simp [hver])]

/-- Witness for C5 amended: the same unverified voter is rejected with 403
once verification is required. -/
theorem c5_witness :
    Vote.POST
        { voteWorld with env :=
            { voteEnv with REQUIRE_MPESA_VERIFICATION := some "true" } }
        voteReq =
      ({ voteWorld with env :=
          { voteEnv with REQUIRE_MPESA_VERIFICATION := some "true" } },
        jsonErrorMsg 403 "User not verified"
          "Please verify your account with MPESA first") :=
  c5_amended_unverified_403_when_required _ voteReq
    { id := some "m1", userId := some "u1" } "u1"
    rfl (by decide) (by decide) rfl (by decide) rfl (by decide)

/-- C6: per (voter, week) the vote state is one-way.  First, whenever the
voter already has the (unique) vote row for the current contest week, a
second vote attempt fails with "Already voted" no matter which meme is
targeted and the world is unchanged.  Second, a voter whose vote rows all
lie in earlier weeks is not blocked: with a current-week meme by another
user the vote succeeds (HTTP 200) and a fresh vote row keyed by the new
week is appended. -/
theorem c6_one_way_vote_per_week :
    (∀ (w : Vote.World) (req : Vote.Request) (body : Vote.Body)
        (userId : String) (v : MemeVoteRow),
      Vote.checkRateLimit w req = false →
      req.body = some body →
      jsTruthyOpt body.id = true →
      body.userId = some userId →
      jsTruthy userId = true →
      Vote.checkUserVerification w userId = true →
      Vote.credsOk w.env = true →
      w.store.memeVotes.filter (fun v => v.user == userId &&
        v.week == getWeekNumberVote w.nowMs w.yearStartMs) = [v] →
      Vote.POST w req =
        (w, jsonErrorMsg 400 "Already voted"
          "You have already voted for a meme this week")) ∧
    (∀ (w : Vote.World) (req : Vote.Request) (body : Vote.Body)
        (memeId userId : String) (m : MemeEntryRow),
      Vote.checkRateLimit w req = false →
      req.body = some body →
      body.id = some memeId →
      jsTruthy memeId = true →
      body.userId = some userId →
      jsTruthy userId = true →
      Vote.checkUserVerification w userId = true →
      Vote.credsOk w.env = true →
      (∀ v ∈ w.store.memeVotes, v.user = userId →
        v.week < getWeekNumberVote w.nowMs w.yearStartMs) →
      w.store.memeEntries.filter (fun m => m.id == memeId) = [m] →
      m.week = getWeekNumberVote w.nowMs w.yearStartMs →
      (m.user == userId) = false →
      w.rpcFault = true →
      w.voteInsertFault = none →
      w.updateFault = false →
      (Vote.POST w req).2.status = 200 ∧
      (Vote.POST w req).1.store.memeVotes = w.store.memeVotes ++
        [{ user := userId, meme_id := memeId
           week := getWeekNumberVote w.nowMs w.yearStartMs
           created_at := w.nowMs, request_id := w.requestId }]) := by
  constructor
  · intro w req body userId v hrl hbody hid huid hu hver hcreds hvote
    rw [post_gates w req body hrl hbody hid (by simp [jsTruthyOpt, huid, hu])]
    simp only [Vote.votePhase, huid, Option.getD_some]
    rw [if_neg (by simp [hver]), if_neg (by simp [hcreds]), hvote]
    rfl
  · intro w req body memeId userId m hrl hbody hid hmid huid hu hver hcreds
      hnovotes hmeme hmw hmu hrpc hins hupd
    have hfilter : w.store.memeVotes.filter (fun v => v.user == userId &&
        v.week == getWeekNumberVote w.nowMs w.yearStartMs) = [] := by
      rw [List.filter_eq_nil_iff]
      intro a ha hcon
      simp only [Bool.and_eq_true, beq_iff_eq] at hcon
      exact absurd hcon.2 (by have := hnovotes a ha hcon.1; omega)
    have hrec2 : (Vote.recordVote w memeId userId
        (getWeekNumberVote w.nowMs w.yearStartMs)).2 = true := by
      simp only [Vote.recordVote, hrpc, hins, hupd]
      rfl
    rw [post_gates w req body hrl hbody (by simp [jsTruthyOpt, hid, hmid])
      (by simp [jsTruthyOpt, huid, hu])]
    simp only [Vote.votePhase, huid, hid, Option.getD_some]
    rw [if_neg (by simp [hver]), if_neg (by simp [hcreds]), hfilter, hmeme]
    simp only [singleRow]
    rw [if_neg (by simp [hmw]), if_neg (by simp [hmu]), if_neg (by simp [hrec2])]
    refine ⟨rfl, ?_⟩
    rw [increment_memeVotes]
    simp only [Vote.recordVote, hrpc, hins, hupd]
    simp

/-- Witness for C6: voter u1 with an existing week-2 vote row is rejected
with "Already voted" even when targeting a different meme; voter u1 whose
only vote row is from week 1 succeeds in week 2 and the new row is
appended. -/
theorem c6_witness :
    (Vote.POST
        { voteWorld with store := { voteStore with memeVotes :=
            [{ user := "u1", meme_id := "m0", week := 2
               created_at := 100, request_id := "r9" }] } }
        voteReq =
      ({ voteWorld with store := { voteStore with memeVotes :=
          [{ user := "u1", meme_id := "m0", week := 2
             created_at := 100, request_id := "r9" }] } },
        jsonErrorMsg 400 "Already voted"
          "You have already voted for a meme this week")) ∧
    ((Vote.POST
        { voteWorld with store := { voteStore with memeVotes :=
            [{ user := "u1", meme_id := "m0", week := 1
               created_at := 100, request_id := "r9" }] } }
        voteReq).2.status = 200 ∧
      (Vote.POST
        { voteWorld with store := { voteStore with memeVotes :=
            [{ user := "u1", meme_id := "m0", week := 1
               created_at := 100, request_id := "r9" }] } }
        voteReq).1.store.memeVotes =
        [{ user := "u1", meme_id := "m0", week := 1
           created_at := 100, request_id := "r9" }] ++
          [{ user := "u1", meme_id := "m1", week := 2
             created_at := 864000000, request_id := "req-1" }]) :=
  ⟨c6_one_way_vote_per_week.1 _ voteReq
      { id := some "m1", userId := some "u1" } "u1"
      { user := "u1", meme_id := "m0", week := 2
        created_at := 100, request_id := "r9" }
      (by decide) rfl (by decide) rfl (by decide) (by decide) (by decide)
      (by decide),
    c6_one_way_vote_per_week.2 _ voteReq
      { id := some "m1", userId := some "u1" } "m1" "u1"
      { id := "m1", user := "u2", url := "https://img.example/meme.png"
        week := 2, votes := 0, created_at := 0, request_id := "r0" }
      (by decide) rfl rfl (by decide) rfl (by decide) (by decide) (by decide)
      (by decide) (by decide) (by decide) (by decide) rfl rfl rfl⟩

/-- C7: for every payload with all required fields present and non-empty,
if the parsed amount is not exactly 1.00 (the embedded strict comparison is
false, which by the last conjunct is exactly "no parsed value equal to
one"), verification fails with the invalid-amount reason and no success
result is produced. -/
theorem c7_invalid_amount_fails (sc : Option String) (p : MPESAWebhookPayload)
    (hfields : firstMissingField p = none)
    (hamount : jsAmountIsOne (jsParseFloat p.TransAmount) = false) :
    (verifyWebhookPayload sc p).success = false ∧
    (verifyWebhookPayload sc p).message =
      "Invalid amount: " ++ amountDisplay (jsParseFloat p.TransAmount) ++
        ". Pledge amount must be exactly KES 1.00" ∧
    ¬ ∃ a, jsParseFloat p.TransAmount = some a ∧ JsNum.toRat a = 1 := by
  have hv : verifyWebhookPayload sc p =
      verifyFail ("Invalid amount: " ++ amountDisplay (jsParseFloat p.TransAmount) ++
        ". Pledge amount must be exactly KES 1.00") := by
    unfold verifyWebhookPayload
    rw [hfields]
    simp [hamount]
  refine ⟨by rw [hv]; rfl, by rw [hv]; rfl, ?_⟩
  rw [← jsAmountIsOne_iff]
  simp [hamount]

/-- Witness for C7 at the concrete payload with amount "2.00". -/
theorem c7_witness :
    firstMissingField payloadAmount2 = none ∧
    jsAmountIsOne (jsParseFloat payloadAmount2.TransAmount) = false ∧
    (verifyWebhookPayload none payloadAmount2).success = false :=
  ⟨by decide, by decide,
    (c7_invalid_amount_fails none payloadAmount2 (by decide) (by decide)).1⟩

/-- C8: with the default configuration (vote threshold 20, submit
threshold 5), a request whose client key already has at least the
threshold of records inside the trailing one-hour window is answered 429
with the world unchanged; rate-limit records are written exactly by
successful requests (non-200/201 outcomes leave the table untouched, a
success appends one record); and records older than one hour are not
counted, so a client all of whose records are stale is not limited. -/
theorem c8_rate_limit_threshold_and_window :
    (∀ (w : Vote.World) (req : Vote.Request),
      Vote.credsOk w.env = true →
      w.rateLimitQueryFault = false →
      w.env.MEME_VOTE_RATE_LIMIT = none →
      recentCount w.store.rateLimits (clientIp req.ip) "meme_vote" w.nowMs ≥ 20 →
      Vote.POST w req =
        (w, jsonErrorMsg 429 "Rate limit exceeded" "Please try again later")) ∧
    (∀ (w : Submit.World) (req : Submit.Request),
      Submit.credsOk w.env = true →
      w.rateLimitQueryFault = false →
      w.env.MEME_SUBMIT_RATE_LIMIT = none →
      recentCount w.store.rateLimits (clientIp req.ip) "meme_submit" w.nowMs ≥ 5 →
      Submit.POST w req =
        (w, jsonErrorMsg 429 "Rate limit exceeded" "Please try again later")) ∧
    (∀ (w : Vote.World) (req : Vote.Request),
      (Vote.POST w req).2.status ≠ 200 →
      (Vote.POST w req).1.store.rateLimits = w.store.rateLimits) ∧
    (∀ (w : Submit.World) (req : Submit.Request),
      (Submit.POST w req).2.status ≠ 201 →
      (Submit.POST w req).1.store.rateLimits = w.store.rateLimits) ∧
    (∀ (w : Vote.World) (req : Vote.Request),
      (Vote.POST w req).2.status = 200 →
      w.rateLimitInsertFault = false →
      (Vote.POST w req).1.store.rateLimits = w.store.rateLimits ++
        [{ ip := clientIp req.ip, endpoint := "meme_vote", created_at := w.nowMs }]) ∧
    (∀ (w : Submit.World) (req : Submit.Request),
      (Submit.POST w req).2.status = 201 →
      w.rateLimitInsertFault = false →
      (Submit.POST w req).1.store.rateLimits = w.store.rateLimits ++
        [{ ip := clientIp req.ip, endpoint := "meme_submit", created_at := w.nowMs }]) ∧
    (∀ (w : Vote.World) (req : Vote.Request),
      w.env.MEME_VOTE_RATE_LIMIT = none →
      (∀ r ∈ w.store.rateLimits, r.ip = clientIp req.ip →
        r.endpoint = "meme_vote" → r.created_at < w.nowMs - hourMs) →
      Vote.checkRateLimit w req = false) ∧
    (∀ (w : Submit.World) (req : Submit.Request),
      w.env.MEME_SUBMIT_RATE_LIMIT = none →
      (∀ r ∈ w.store.rateLimits, r.ip = clientIp req.ip →
        r.endpoint = "meme_submit" → r.created_at < w.nowMs - hourMs) →
      Submit.checkRateLimit w req = false) := by
  refine ⟨?_, ?_, ?_, ?_, ?_, ?_, ?_, ?_⟩
  · intro w req hcreds hfault hlimit hcount
    have hc : Vote.checkRateLimit w req = true := by
      simp only [Vote.checkRateLimit, hlimit]
      rw [if_neg (by simp [hcreds]), if_neg (by simp [hfault])]
      rw [show jsParseInt (jsOrDefault none "20") = some 20 from by decide]
      simp only [geNaN, decide_eq_true_eq]
      exact_mod_cast hcount
    simp only [Vote.POST, hc, if_true]
  · intro w req hcreds hfault hlimit hcount
    have hc : Submit.checkRateLimit w req = true := by
      simp only [Submit.checkRateLimit, hlimit]
      rw [if_neg (by simp [hcreds]), if_neg (by simp [hfault])]
      rw [show jsParseInt (jsOrDefault none "5") = some 5 from by decide]
      simp only [geNaN, decide_eq_true_eq]
      exact_mod_cast hcount
    simp only [Submit.POST, hc, if_true]
  · intro w req h
    rcases vote_post_rateLimits w req with ⟨_, heq⟩ | ⟨h200, _⟩
    · exact heq
    · exact absurd h200 h
  · intro w req h
    rcases submit_post_rateLimits w req with ⟨_, heq⟩ | ⟨h201, _⟩
    · exact heq
    · exact absurd h201 h
  · intro w req h200 hfault
    rcases vote_post_rateLimits w req with ⟨hne, _⟩ | ⟨_, heq⟩
    · exact absurd h200 hne
    · rw [heq, if_neg (by simp [hfault])]
  · intro w req h201 hfault
    rcases submit_post_rateLimits w req with ⟨hne, _⟩ | ⟨_, heq⟩
    · exact absurd h201 hne
    · rw [heq, if_neg (by simp [hfault])]
  · intro w req hlimit hold
    have hnil : w.store.rateLimits.filter (fun r =>
        r.ip == clientIp req.ip && r.endpoint == "meme_vote" &&
          decide (r.created_at ≥ w.nowMs - hourMs)) = [] := by
      rw [List.filter_eq_nil_iff]
      intro r hr hcon
      simp only [Bool.and_eq_true, beq_iff_eq, decide_eq_true_eq] at hcon
      exact absurd hcon.2 (not_le.mpr (hold r hr hcon.1.1 hcon.1.2))
    simp only [Vote.checkRateLimit, hlimit, recentCount, hnil]
    split_ifs <;> rfl
  · intro w req hlimit hold
    have hnil : w.store.rateLimits.filter (fun r =>
        r.ip == clientIp req.ip && r.endpoint == "meme_submit" &&
          decide (r.created_at ≥ w.nowMs - hourMs)) = [] := by
      rw [List.filter_eq_nil_iff]
      intro r hr hcon
      simp only [Bool.and_eq_true, beq_iff_eq, decide_eq_true_eq] at hcon
      exact absurd hcon.2 (not_le.mpr (hold r hr hcon.1.1 hcon.1.2))
    simp only [Submit.checkRateLimit, hlimit, recentCount, hnil]
    split_ifs <;> rfl

/-- Witness for C8 at the concrete worlds: the 21st vote and 6th
submission are answered 429; a failed vote and a failed submission leave
the table untouched; a successful vote and submission each append one
record; a client with only stale records is not limited. -/
theorem c8_witness :
    Vote.POST limitedVoteWorld voteReq =
      (limitedVoteWorld,
        jsonErrorMsg 429 "Rate limit exceeded" "Please try again later") ∧
    Submit.POST limitedSubmitWorld submitReq =
      (limitedSubmitWorld,
        jsonErrorMsg 429 "Rate limit exceeded" "Please try again later") ∧
    (Vote.POST { voteWorld with updateFault := true } voteReq).1.store.rateLimits =
      { voteWorld with updateFault := true }.store.rateLimits ∧
    (Submit.POST { submitWorld with entryInsertFault := true }
        submitReq).1.store.rateLimits =
      { submitWorld with entryInsertFault := true }.store.rateLimits ∧
    (Vote.POST voteWorld voteReq).1.store.rateLimits =
      voteWorld.store.rateLimits ++
        [{ ip := clientIp voteReq.ip, endpoint := "meme_vote"
           created_at := voteWorld.nowMs }] ∧
    (Submit.POST submitWorld submitReq).1.store.rateLimits =
      submitWorld.store.rateLimits ++
        [{ ip := clientIp submitReq.ip, endpoint := "meme_submit"
           created_at := submitWorld.nowMs }] ∧
    Vote.checkRateLimit staleVoteWorld voteReq = false ∧
    Submit.checkRateLimit staleSubmitWorld submitReq = false :=
  ⟨c8_rate_limit_threshold_and_window.1 limitedVoteWorld voteReq
      (by decide) rfl rfl (by decide),
    c8_rate_limit_threshold_and_window.2.1 limitedSubmitWorld submitReq
      (by decide) rfl rfl (by decide),
    c8_rate_limit_threshold_and_window.2.2.1
      { voteWorld with updateFault := true } voteReq (by decide),
    c8_rate_limit_threshold_and_window.2.2.2.1
      { submitWorld with entryInsertFault := true } submitReq (by decide),
    c8_rate_limit_threshold_and_window.2.2.2.2.1 voteWorld voteReq
      (by decide) rfl,
    c8_rate_limit_threshold_and_window.2.2.2.2.2.1 submitWorld submitReq
      (by decide) rfl,
    c8_rate_limit_threshold_and_window.2.2.2.2.2.2.1 staleVoteWorld voteReq
      rfl (by decide),
    c8_rate_limit_threshold_and_window.2.2.2.2.2.2.2 staleSubmitWorld submitReq
      rfl (by decide)⟩

/-- C9: when the rate-limit count query fails (store error or thrown
exception), both endpoints treat the client as not limited (fail open) and
the request is never answered 429 at the rate-limit gate. -/
theorem c9_rate_limit_fails_open :
    (∀ (w : Vote.World) (req : Vote.Request),
      w.rateLimitQueryFault = true →
      Vote.checkRateLimit w req = false ∧
      (Vote.POST w req).2.status ≠ 429) ∧
    (∀ (w : Submit.World) (req : Submit.Request),
      w.rateLimitQueryFault = true →
      Submit.checkRateLimit w req = false ∧
      (Submit.POST w req).2.status ≠ 429) := by
  constructor
  · intro w req hfault
    have hc : Vote.checkRateLimit w req = false := by
      simp only [Vote.checkRateLimit, hfault]
      split_ifs <;> rfl
    exact ⟨hc, vote_post_no429 w req hc⟩
  · intro w req hfault
    have hc : Submit.checkRateLimit w req = false := by
      simp only [Submit.checkRateLimit, hfault]
      split_ifs <;> rfl
    exact ⟨hc, submit_post_no429 w req hc⟩

/-- Witness for C9 at the concrete worlds with a failing store. -/
theorem c9_witness :
    (Vote.checkRateLimit { voteWorld with rateLimitQueryFault := true } voteReq = false ∧
      (Vote.POST { voteWorld with rateLimitQueryFault := true } voteReq).2.status ≠ 429) ∧
    (Submit.checkRateLimit { submitWorld with rateLimitQueryFault := true } submitReq = false ∧
      (Submit.POST { submitWorld with rateLimitQueryFault := true } submitReq).2.status ≠ 429) :=
  ⟨c9_rate_limit_fails_open.1 { voteWorld with rateLimitQueryFault := true }
      voteReq rfl,
    c9_rate_limit_fails_open.2 { submitWorld with rateLimitQueryFault := true }
      submitReq rfl⟩

/-- C10: a request without a client IP uses the literal key "unknown" in
both the limit check and the limit record, for both endpoints: the check
result is identical for any two IP-less requests (they share one budget
per endpoint), and the record written carries ip "unknown". -/
theorem c10_ipless_requests_share_unknown_budget
    (w : Vote.World) (r₁ r₂ : Vote.Request)
    (ws : Submit.World) (s₁ s₂ : Submit.Request)
    (h₁ : r₁.ip = none) (h₂ : r₂.ip = none)
    (h₃ : s₁.ip = none) (h₄ : s₂.ip = none) :
    clientIp r₁.ip = "unknown" ∧
    Vote.checkRateLimit w r₁ = Vote.checkRateLimit w r₂ ∧
    (Vote.credsOk w.env = true → w.rateLimitInsertFault = false →
      (Vote.incrementRateLimitCounter w r₁).store.rateLimits =
        w.store.rateLimits ++
          [{ ip := "unknown", endpoint := "meme_vote", created_at := w.nowMs }]) ∧
    Submit.checkRateLimit ws s₁ = Submit.checkRateLimit ws s₂ ∧
    (Submit.credsOk ws.env = true → ws.rateLimitInsertFault = false →
      (Submit.incrementRateLimitCounter ws s₁).store.rateLimits =
        ws.store.rateLimits ++
          [{ ip := "unknown", endpoint := "meme_submit", created_at := ws.nowMs }]) := by
  refine ⟨by rw [h₁]; rfl, ?_, ?_, ?_, ?_⟩
  · simp only [Vote.checkRateLimit, h₁, h₂]
  · intro hc hf
    simp only [Vote.incrementRateLimitCounter, h₁]
    rw [if_neg (by simp [hc]), if_neg (by simp [hf])]
    exact rfl
  · simp only [Submit.checkRateLimit, h₃, h₄]
  · intro hc hf
    simp only [Submit.incrementRateLimitCounter, h₃]
    rw [if_neg (by simp [hc]), if_neg (by simp [hf])]
    exact rfl

/-- Witness for C10 at concrete IP-less requests. -/
theorem c10_witness :
    clientIp ({ voteReq with ip := none } : Vote.Request).ip = "unknown" ∧
    (Vote.incrementRateLimitCounter voteWorld
        { voteReq with ip := none }).store.rateLimits =
      voteWorld.store.rateLimits ++
        [{ ip := "unknown", endpoint := "meme_vote"
           created_at := voteWorld.nowMs }] ∧
    (Submit.incrementRateLimitCounter submitWorld
        { submitReq with ip := none }).store.rateLimits =
      submitWorld.store.rateLimits ++
        [{ ip := "unknown", endpoint := "meme_submit"
           created_at := submitWorld.nowMs }] := by
  have h := c10_ipless_requests_share_unknown_budget voteWorld
    { voteReq with ip := none } { voteReq with ip := none }
    submitWorld { submitReq with ip := none } { submitReq with ip := none }
    rfl rfl rfl rfl
  exact ⟨h.1, h.2.2.1 (by decide) rfl, h.2.2.2.2 (by decide) rfl⟩

end Wantam
